import Mathlib

/-
Shallow embedding of the I4 Interrogator client programs:
`read_spectral_data.c` (general telemetry dump, here the "spectral program",
prefix `s`) and `read_peak_data.c` (force-calibrated dump, here the "peak
program", prefix `p`).  Machine words are modelled as `Nat` with explicit
masks; the byte stream is modelled at the granularity of the `recv` calls the
programs issue (kind and size of each read), and the records they emit.
-/

namespace I4

/-! ### Field extractors (identical in both C files) -/

/-- The C function `sensor_id`: `(uint8_t)(peak_data[0] & 0xff)`. -/
def sensor_id (w0 : Nat) : Nat := w0 &&& 0xff

/-- The C function `fiber_id`: `(uint8_t)(peak_data[0] >> 8) & 0x0f`.
The cast to `uint8_t` truncates to 8 bits (`% 256`) before the nibble mask. -/
def fiber_id (w0 : Nat) : Nat := ((w0 >>> 8) % 256) &&& 0x0f

/-- The C function `channel_id`: `(uint8_t)(peak_data[0] >> 12) & 0x0f`. -/
def channel_id (w0 : Nat) : Nat := ((w0 >>> 12) % 256) &&& 0x0f

/-- The C function `wavelength`, modelled at the bit-pattern level.  The code
computes `peak_value[0] = (peak_data[0] & ~0xffff) | 0x7fff` (in 32 bits,
`~0xffff = 0xffff0000`), `peak_value[1] = peak_data[1]`, and reinterprets the
8 bytes as a double.  On the little-endian target the 64-bit pattern handed to
that reinterpretation is `peak_value[1] * 2^32 + peak_value[0]`. -/
def wavelength_bits (w0 w1 : Nat) : Nat :=
  (w1 % 2 ^ 32) * 2 ^ 32 + ((w0 &&& 0xffff0000) ||| 0x7fff)

/-! ### Header field extraction (`processPacket_Header`, identical in both files) -/

/-- The mask-and-shift extraction in `processPacket_Header`:
`packetCounter = info & 0xFFF`, `sweepingType = (info & 0x7000) >> 12`,
`triggerMode = (info & 0x8000) >> 15`.  The function is total: no sweep-type
value is rejected. -/
def decodeInfo (info : Nat) : Nat × Nat × Nat :=
  (info &&& 0xfff, (info &&& 0x7000) >>> 12, (info &&& 0x8000) >>> 15)

/-- Composition of the three header sub-fields into the 16-bit `info` word as
the wire format lays them out: counter in bits 0-11, sweep type in bits 12-14,
trigger mode in bit 15. -/
def encodeInfo (counter sweepType triggerMode : Nat) : Nat :=
  counter + sweepType * 2 ^ 12 + triggerMode * 2 ^ 15

/-! ### Helper lemmas on bit masking -/

theorem testBit_hi16_eq_false {i : Nat} (hi : i < 16) :
    Nat.testBit 0xffff0000 i = false := by
  interval_cases i <;> decide

theorem land_lor_low16 (w0 v : Nat) (hv : v < 2 ^ 16) :
    ((w0 &&& 0xffff0000) ||| v) &&& 0xffff0000 = w0 &&& 0xffff0000 := by
  apply Nat.eq_of_testBit_eq
  intro i
  simp only [Nat.testBit_and, Nat.testBit_or]
  by_cases hi : i < 16
  · simp [testBit_hi16_eq_false hi]
  · have hvi : Nat.testBit v i = false :=
      Nat.testBit_lt_two_pow
        (lt_of_lt_of_le hv (Nat.pow_le_pow_right (by norm_num) (Nat.le_of_not_lt hi)))
    cases hw : Nat.testBit w0 i <;> cases hm : Nat.testBit 0xffff0000 i <;>
      simp [hvi]

/-- Masking with a contiguous run of `m` ones starting at bit `k` and shifting
down extracts bits `k .. k+m-1`, i.e. `n / 2^k % 2^m`. -/
theorem and_shifted_mask (n k m : Nat) :
    (n &&& ((2 ^ m - 1) <<< k)) >>> k = n / 2 ^ k % 2 ^ m := by
  apply Nat.eq_of_testBit_eq
  intro i
  rw [← Nat.shiftRight_eq_div_pow]
  simp only [Nat.testBit_shiftRight, Nat.testBit_and, Nat.testBit_shiftLeft,
    Nat.testBit_mod_two_pow, Nat.testBit_two_pow_sub_one, ge_iff_le]
  have h1 : decide (k ≤ k + i) = true := decide_eq_true (Nat.le_add_right k i)
  rw [h1]
  simp only [Nat.add_sub_cancel_left, Bool.true_and]
  cases Nat.testBit n (k + i) <;> simp

/-! ### Claim theorems for the extractors -/

/-- C4: for all 32-bit words `w0`, `w1` and any 16-bit value `v`,
`wavelength((w0 & 0xFFFF0000) | v, w1) = wavelength(w0, w1)`: the extracted
wavelength bit pattern depends only on the upper 16 bits of `w0` and on `w1`,
because the low 16 bits of `w0` are forced to `0x7FFF` before the 64-bit
reinterpretation. -/
theorem wavelength_ignores_low16 (w0 w1 v : Nat)
    (hw0 : w0 < 2 ^ 32) (hw1 : w1 < 2 ^ 32) (hv : v < 2 ^ 16) :
    wavelength_bits ((w0 &&& 0xffff0000) ||| v) w1 = wavelength_bits w0 w1 := by
  unfold wavelength_bits
  rw [land_lor_low16 w0 v hv]

/-- Witness for C4 at a concrete input. -/
theorem wavelength_ignores_low16_witness :
    0x12345678 < 2 ^ 32 ∧ 0x3ff00000 < 2 ^ 32 ∧ 0xabc < 2 ^ 16 ∧
    wavelength_bits ((0x12345678 &&& 0xffff0000) ||| 0xabc) 0x3ff00000 =
      wavelength_bits 0x12345678 0x3ff00000 :=
  ⟨by decide, by decide, by decide,
    wavelength_ignores_low16 0x12345678 0x3ff00000 0xabc
      (by decide) (by decide) (by decide)⟩

/-- C8: for every word `w0`, `sensor_id w0 < 256`, `fiber_id w0 < 16`,
`channel_id w0 < 16`, and the three extractors read the disjoint bit ranges
0-7, 8-11 and 12-15 of `w0` respectively, witnessed by the exact div/mod
characterisations `w0 % 2^8`, `w0 / 2^8 % 2^4` and `w0 / 2^12 % 2^4`. -/
theorem extractor_ranges (w0 : Nat) :
    sensor_id w0 < 256 ∧ fiber_id w0 < 16 ∧ channel_id w0 < 16 ∧
    sensor_id w0 = w0 % 2 ^ 8 ∧
    fiber_id w0 = w0 / 2 ^ 8 % 2 ^ 4 ∧
    channel_id w0 = w0 / 2 ^ 12 % 2 ^ 4 := by
  have hs : sensor_id w0 = w0 % 2 ^ 8 := by
    unfold sensor_id
    have h : (0xff : Nat) = 2 ^ 8 - 1 := by norm_num
    rw [h, Nat.and_pow_two_sub_one_eq_mod]
  have hf : fiber_id w0 = w0 / 2 ^ 8 % 2 ^ 4 := by
    unfold fiber_id
    have h : (0x0f : Nat) = 2 ^ 4 - 1 := by norm_num
    rw [h, Nat.and_pow_two_sub_one_eq_mod, Nat.shiftRight_eq_div_pow,
      Nat.mod_mod_of_dvd _ (by norm_num)]
  have hc : channel_id w0 = w0 / 2 ^ 12 % 2 ^ 4 := by
    unfold channel_id
    have h : (0x0f : Nat) = 2 ^ 4 - 1 := by norm_num
    rw [h, Nat.and_pow_two_sub_one_eq_mod, Nat.shiftRight_eq_div_pow,
      Nat.mod_mod_of_dvd _ (by norm_num)]
  refine ⟨?_, ?_, ?_, hs, hf, hc⟩
  · rw [hs]; exact Nat.mod_lt _ (by norm_num)
  · rw [hf]; exact Nat.mod_lt _ (by norm_num)
  · rw [hc]; exact Nat.mod_lt _ (by norm_num)

/-- C6: header decode round-trip.  For every packet counter `c ≤ 0xFFF`,
sweep type `s ≤ 2` and trigger mode `t ≤ 1`, decoding the composed `info`
field recovers exactly the three original values. -/
theorem decodeInfo_encodeInfo (c s t : Nat)
    (hc : c ≤ 0xfff) (hs : s ≤ 2) (ht : t ≤ 1) :
    decodeInfo (encodeInfo c s t) = (c, s, t) := by
  have h1 : ∀ n : Nat, n &&& 0xfff = n % 2 ^ 12 := fun n => by
    have h : (0xfff : Nat) = 2 ^ 12 - 1 := by norm_num
    rw [h, Nat.and_pow_two_sub_one_eq_mod]
  have h2 : ∀ n : Nat, (n &&& 0x7000) >>> 12 = n / 2 ^ 12 % 2 ^ 3 := fun n => by
    have h : (0x7000 : Nat) = (2 ^ 3 - 1) <<< 12 := by decide
    rw [h, and_shifted_mask]
  have h3 : ∀ n : Nat, (n &&& 0x8000) >>> 15 = n / 2 ^ 15 % 2 ^ 1 := fun n => by
    have h : (0x8000 : Nat) = (2 ^ 1 - 1) <<< 15 := by decide
    rw [h, and_shifted_mask]
  unfold decodeInfo encodeInfo
  rw [h1, h2, h3]
  simp only [Prod.mk.injEq]
  refine ⟨?_, ?_, ?_⟩ <;> omega

/-- Witness for C6 at a concrete input. -/
theorem decodeInfo_encodeInfo_witness :
    5 ≤ 0xfff ∧ 1 ≤ 2 ∧ 1 ≤ 1 ∧ decodeInfo (encodeInfo 5 1 1) = (5, 1, 1) :=
  ⟨by decide, by decide, by decide,
    decodeInfo_encodeInfo 5 1 1 (by decide) (by decide) (by decide)⟩

/-! ### Little-endian word assembly (the struct casts on the little-endian target) -/

/-- Four consecutive payload bytes read as one little-endian `uint32_t`. -/
def le32 (b0 b1 b2 b3 : Nat) : Nat :=
  b0 + 2 ^ 8 * b1 + 2 ^ 16 * b2 + 2 ^ 24 * b3

/-! ### Error payload decoding (`processPacket_errorPayload`, identical in both files) -/

/-- The three classifications printed by `processPacket_errorPayload`. -/
inductive ErrorKind where
  | missingPeak
  | multiplePeaks
  | internalError
deriving DecidableEq

/-- The C function `processPacket_errorPayload` on the 8 received bytes.  The
struct cast yields `error_id` from bytes 0-3 and `error_description` from
bytes 4-7; the code stores `data[1] = error_id` and `data[0] =
error_description`, branches on `data[1]` (500, 501, default), and in the 500
and 501 branches prints the sensor, fiber and channel ids extracted from
`data[0]`, i.e. from the description word. -/
def processPacket_errorPayload (b0 b1 b2 b3 b4 b5 b6 b7 : Nat) :
    ErrorKind × Option (Nat × Nat × Nat) :=
  let error_id := le32 b0 b1 b2 b3
  let error_description := le32 b4 b5 b6 b7
  if error_id = 500 then
    (.missingPeak,
      some (sensor_id error_description, fiber_id error_description,
        channel_id error_description))
  else if error_id = 501 then
    (.multiplePeaks,
      some (sensor_id error_description, fiber_id error_description,
        channel_id error_description))
  else
    (.internalError, none)

/-! ### Calibration engine (`calibrationForce`, peak program only)

The C code computes in `double`; the arithmetic identities claimed of it are
exact field identities, modelled here over `ℚ` (exact rational arithmetic,
keeping every constant and operation of the source). -/

/-- The C function `calibrationForce`: strain from the wavelength shift
relative to the initial wavelength, divided by the inverse sensitivity
constant `K = 1/460/0.02986`, scaled to milli-newtons. -/
def calibrationForce (initial_wavelength wavelength : ℚ) : ℚ :=
  let present_wavelength := wavelength
  let delta_wavelength := present_wavelength - initial_wavelength
  let P_epsilon : ℚ := 0.28
  let strain := delta_wavelength / initial_wavelength / (1 - P_epsilon)
  let K : ℚ := 1 / 460 / 0.02986
  strain / K * 1000

/-! ### Frame orchestrators

One iteration of each program's `while (1)` receive loop, modelled as the
list of `recv` calls it issues (kind and byte count), parametrised by the
header fields `sweep_type`, `DO` (data offset) and `DL` (data length) that
`processPacket_Header` extracted for that frame.  `DL` is the non-negative
value of the C `int` (the device sends 32-bit lengths well below `2^31`);
`DL / 8` and `DL / 12` are the C integer divisions bounding the payload
loops. -/

/-- Kinds of `recv` calls the programs issue. -/
inductive ReadKind where
  | header
  | peakPayload
  | spectralPayload
  | tsPeakPayload
  | errorPayload
  | flag
deriving DecidableEq

/-- One `recv` call: its kind and the number of bytes requested. -/
abbrev ReadEvent := ReadKind × Nat

/-- Read sequence of one loop iteration of the spectral program
(`read_spectral_data.c`): header, then—if `DO == 16`—the payload reads
selected by `sweep_type` (peak: `DL/8` reads of 8 bytes; spectral: one
8-byte info read plus, for `i` from 1 below `DL/8`, one 8-byte data read;
time-stamped peak: `DL/12` reads of 12 bytes) followed by the 8-byte flag
read; otherwise a single 8-byte error-payload read, after which the code
executes `break` before reaching the flag read. -/
def sFrameEvents (sweep_type DO DL : Nat) : List ReadEvent :=
  [(.header, 16)] ++
    (if DO = 16 then
      (if sweep_type = 0 then
        List.replicate (DL / 8) (.peakPayload, 8)
      else if sweep_type = 1 then
        (.spectralPayload, 8) :: List.replicate (DL / 8 - 1) (.spectralPayload, 8)
      else if sweep_type = 2 then
        List.replicate (DL / 12) (.tsPeakPayload, 12)
      else []) ++ [(.flag, 8)]
    else
      [(.errorPayload, 8)])

/-- The spectral program leaves its receive loop after every frame: the
normal branch ends in `break` after the flag read, and the error branch ends
in `break` immediately after the error payload. -/
def sFrameStops : Bool := true

/-- Read sequence of one loop iteration of the peak program
(`read_peak_data.c`): header, then—if `DO == 16`—the payload reads selected
by `sweep_type` (peak: `DL/8` reads of 8 bytes; time-stamped peak: `DL/12`
reads of 12 bytes; no other type is handled); otherwise one 8-byte
error-payload read followed by the same `sweep_type`-selected normal payload
reads; finally the 8-byte flag read, reached in both branches. -/
def pFrameEvents (sweep_type DO DL : Nat) : List ReadEvent :=
  ([(.header, 16)] ++
    (if DO = 16 then
      (if sweep_type = 0 then
        List.replicate (DL / 8) (.peakPayload, 8)
      else if sweep_type = 2 then
        List.replicate (DL / 12) (.tsPeakPayload, 12)
      else [])
    else
      (.errorPayload, 8) ::
        (if sweep_type = 0 then
          List.replicate (DL / 8) (.peakPayload, 8)
        else if sweep_type = 2 then
          List.replicate (DL / 12) (.tsPeakPayload, 12)
        else []))) ++ [(.flag, 8)]

/-- The peak program never leaves its receive loop: the `break` at the end of
the loop body is commented out and no branch exits. -/
def pFrameStops : Bool := false

/-- The records the decoding pipeline produces, one tag per decoded frame
element. -/
inductive DecodedRecord where
  | headerInfo
  | peak
  | tsPeak
  | spectralInfo
  | spectralSample
  | errorRec
  | flagInfo
deriving DecidableEq

/-- Records produced by one loop iteration of the spectral program, in
arrival order: the decoded header, then the payload records selected by the
branch taken (for spectral: `processPacket_spectralPayload_info` once, then
`processPacket_spectralPayload` for `i` from 1 below `DL/8`), then the flag;
in the error branch only the decoded error payload. -/
def sFrameRecords (sweep_type DO DL : Nat) : List DecodedRecord :=
  [.headerInfo] ++
    (if DO = 16 then
      (if sweep_type = 0 then
        List.replicate (DL / 8) .peak
      else if sweep_type = 1 then
        .spectralInfo :: List.replicate (DL / 8 - 1) .spectralSample
      else if sweep_type = 2 then
        List.replicate (DL / 12) .tsPeak
      else []) ++ [.flagInfo]
    else
      [.errorRec])

/-! ### Calibration table bounds (peak program) -/

/-- The peak program's calibration table is declared
`double FBGs_info[4][1][2]` (channel - fibre - sensor); an access
`FBGs_info[channel][fiber][sensor]` stays inside the table exactly when each
index is below its dimension. -/
def FBGs_lookup_inBounds (channel fiber sensor : Nat) : Prop :=
  channel < 4 ∧ fiber < 1 ∧ sensor < 2

instance (channel fiber sensor : Nat) :
    Decidable (FBGs_lookup_inBounds channel fiber sensor) := by
  unfold FBGs_lookup_inBounds
  infer_instance

/-! ### Claim theorems on the orchestrators, calibration and error decoding -/

/-- C1 (failing input): in the peak program, on the frame whose decoded
header has `dataOffset = 0` (hence not 16), sweep type 0 and data length 8,
the orchestrator reads the one 8-byte error payload but then also reads one
8-byte normal peak payload before the flag — contradicting the rule that no
normal payload bytes are read for an error frame.  (The spectral program
does satisfy the rule: its error branch breaks immediately.) -/
theorem pFrame_error_branch_reads_normal_payload :
    pFrameEvents 0 0 8 =
      [(.header, 16), (.errorPayload, 8), (.peakPayload, 8), (.flag, 8)] := by
  decide

/-- C2 (counterexample): with `dataLength = 8 + 4k*8` at `k = 1` (40 bytes),
the spectral branch does not produce 1 info record and 1 sample record: it
produces `40/8 - 1 = 4` sample records. -/
theorem sFrame_spectral_claim_counterexample :
    sFrameRecords 1 16 (8 + 4 * 1 * 8) ≠
      [.headerInfo, .spectralInfo, .spectralSample, .flagInfo] := by
  decide

/-- C2 (amended): for every spectral frame (sweep type 1, `dataOffset = 16`)
with `dataLength = 8 + k*8` bytes, the spectral program produces exactly one
SpectralInfo record followed by exactly `k` SpectralSample records, in
arrival order. -/
theorem sFrame_spectral_framing (k : Nat) :
    sFrameRecords 1 16 (8 + k * 8) =
      [.headerInfo, .spectralInfo] ++
        List.replicate k .spectralSample ++ [.flagInfo] := by
  have h : (8 + k * 8) / 8 = 1 + k := by omega
  have h2 : 1 + k - 1 = k := by omega
  simp [sFrameRecords, h, h2]

/-- C3 (counterexample): header decoding never fails.  On an `info` word with
sweep type 3 it returns the fields `(0, 3, 0)` like any other value, and in
the spectral program a frame carrying that sweep type with `dataOffset = 0`
still reads payload bytes: the 8-byte error payload. -/
theorem unknown_sweep_type_counterexample :
    decodeInfo 0x3000 = (0, 3, 0) ∧
    ((.errorPayload, 8) : ReadEvent) ∈ sFrameEvents 3 0 8 := by
  decide

/-- C3 (amended): header decoding is total — the sweep type is extracted by
mask and shift with no validation — and when `dataOffset = 16` an extracted
sweep type greater than 2 matches no payload branch, so both orchestrators
read no payload bytes for that frame (only the header and flag reads). -/
theorem unknown_sweep_type_no_payload (sweep_type DL : Nat) (h : 2 < sweep_type) :
    sFrameEvents sweep_type 16 DL = [(.header, 16), (.flag, 8)] ∧
    pFrameEvents sweep_type 16 DL = [(.header, 16), (.flag, 8)] := by
  have h0 : sweep_type ≠ 0 := by omega
  have h1 : sweep_type ≠ 1 := by omega
  have h2 : sweep_type ≠ 2 := by omega
  constructor <;> simp [sFrameEvents, pFrameEvents, h0, h1, h2]

/-- Witness for the amended C3 at a concrete input. -/
theorem unknown_sweep_type_no_payload_witness :
    2 < 3 ∧ sFrameEvents 3 16 40 = [(.header, 16), (.flag, 8)] ∧
      pFrameEvents 3 16 40 = [(.header, 16), (.flag, 8)] :=
  ⟨by decide, unknown_sweep_type_no_payload 3 40 (by decide)⟩

/-- C5: for every nonzero reference wavelength, the computed force at the
reference wavelength itself is zero, and for fixed reference the force is a
linear function of the wavelength difference `d`: it equals `d` times the
force at unit difference. -/
theorem calibrationForce_zero_and_linear (ref d : ℚ) (h : ref ≠ 0) :
    calibrationForce ref ref = 0 ∧
    calibrationForce ref (ref + d) = d * calibrationForce ref (ref + 1) := by
  unfold calibrationForce
  constructor
  · simp
  · field_simp
    ring

/-- Witness for C5 at a concrete input. -/
theorem calibrationForce_zero_and_linear_witness :
    (1 : ℚ) ≠ 0 ∧ calibrationForce 1 1 = 0 ∧
      calibrationForce 1 (1 + 2) = 2 * calibrationForce 1 (1 + 1) :=
  ⟨by norm_num, calibrationForce_zero_and_linear 1 2 (by norm_num)⟩

/-- C7 (counterexample): in the spectral program, on an error frame
(`dataOffset = 0`) the payload phase is not followed by a flag read — the
`break` fires first — and the receive loop stops after this first frame
rather than continuing to the next header. -/
theorem sFrame_flag_counterexample :
    ((.flag, 8) : ReadEvent) ∉ sFrameEvents 0 0 8 ∧ sFrameStops = true := by
  decide

/-- C7 (amended): in the peak program, after the payload phase completes in
either branch the orchestrator reads exactly 8 flag bytes as its final read
of the frame and loops back unconditionally; the spectral program stops
after its first frame, reading the flag only in the normal branch
(`dataOffset = 16`) and skipping it in the error branch. -/
theorem frame_flag_phase (sweep_type DO DL : Nat) :
    (∃ pre, pFrameEvents sweep_type DO DL = pre ++ [(.flag, 8)] ∧
      ((.flag, 8) : ReadEvent) ∉ pre) ∧
    pFrameStops = false ∧
    (((.flag, 8) : ReadEvent) ∈ sFrameEvents sweep_type DO DL ↔ DO = 16) ∧
    sFrameStops = true := by
  refine ⟨⟨_, rfl, ?_⟩, rfl, ?_, rfl⟩
  · by_cases hDO : DO = 16 <;>
      simp only [hDO, if_true, if_false, List.mem_append, List.mem_cons,
        List.mem_singleton, List.mem_replicate] <;>
      split_ifs <;>
      simp [List.mem_replicate]
  · by_cases hDO : DO = 16
    · subst hDO
      simp [sFrameEvents]
    · simp [sFrameEvents, hDO]

/-- C9: error payload decoding is total; error id 500 classifies as
MissingPeak and 501 as MultiplePeaks, each with the sensor, fiber and
channel ids extracted from the description word (bytes 4-7) by the same
extractors as for peak records, and every other code classifies as
Internal. -/
theorem errorPayload_classification (b0 b1 b2 b3 b4 b5 b6 b7 : Nat) :
    (le32 b0 b1 b2 b3 = 500 →
      processPacket_errorPayload b0 b1 b2 b3 b4 b5 b6 b7 =
        (.missingPeak, some (sensor_id (le32 b4 b5 b6 b7),
          fiber_id (le32 b4 b5 b6 b7), channel_id (le32 b4 b5 b6 b7)))) ∧
    (le32 b0 b1 b2 b3 = 501 →
      processPacket_errorPayload b0 b1 b2 b3 b4 b5 b6 b7 =
        (.multiplePeaks, some (sensor_id (le32 b4 b5 b6 b7),
          fiber_id (le32 b4 b5 b6 b7), channel_id (le32 b4 b5 b6 b7)))) ∧
    (le32 b0 b1 b2 b3 ≠ 500 → le32 b0 b1 b2 b3 ≠ 501 →
      processPacket_errorPayload b0 b1 b2 b3 b4 b5 b6 b7 =
        (.internalError, none)) := by
  refine ⟨fun h => ?_, fun h => ?_, fun h1 h2 => ?_⟩
  · simp [processPacket_errorPayload, h]
  · simp [processPacket_errorPayload, h]
  · simp [processPacket_errorPayload, h1, h2]

/-- Witness for C9 at a concrete input: bytes `f4 01 00 00` encode error id
500, description `34 12 00 00` encodes word `0x1234`, giving sensor `0x34`,
fiber 2, channel 1. -/
theorem errorPayload_classification_witness :
    le32 0xf4 0x01 0 0 = 500 ∧
    processPacket_errorPayload 0xf4 0x01 0 0 0x34 0x12 0 0 =
      (.missingPeak, some (0x34, 0x02, 0x01)) := by
  refine ⟨by decide, ?_⟩
  have h := (errorPayload_classification 0xf4 0x01 0 0 0x34 0x12 0 0).1 (by decide)
  rw [h]
  decide

/-- C10: the calibration-table access `FBGs_info[channel][fiber][sensor]` is
within the 4 x 1 x 2 table exactly when `channel ≤ 3`, `fiber = 0` and
`sensor ≤ 1`; and there is a well-formed 8-byte peak payload (here, first
word `0xf000`, giving channel id 15) whose extracted ids index outside the
table. -/
theorem fbgs_lookup_bounds :
    (∀ channel fiber sensor : Nat,
      FBGs_lookup_inBounds channel fiber sensor ↔
        (channel ≤ 3 ∧ fiber = 0 ∧ sensor ≤ 1)) ∧
    (∃ b0 b1 b2 b3 b4 b5 b6 b7 : Nat,
      b0 < 256 ∧ b1 < 256 ∧ b2 < 256 ∧ b3 < 256 ∧
      b4 < 256 ∧ b5 < 256 ∧ b6 < 256 ∧ b7 < 256 ∧
      ¬ FBGs_lookup_inBounds (channel_id (le32 b0 b1 b2 b3))
        (fiber_id (le32 b0 b1 b2 b3)) (sensor_id (le32 b0 b1 b2 b3))) := by
  constructor
  · intro channel fiber sensor
    unfold FBGs_lookup_inBounds
    omega
  · exact ⟨0, 0xf0, 0, 0, 0, 0, 0, 0, by decide, by decide, by decide, by decide,
      by decide, by decide, by decide, by decide, by decide⟩

end I4
